import Mathlib

/-
Verification of the meetup registration service (src/meetup.js).

Shallow embedding conventions:
* The SQLite `registrations` table is a `Table`: three booleans record which
  of the late-added columns (`is_speaker`, `topic`, `profile_pic`) exist in the
  schema, `rows` is the table content in insertion order, `nextId` models the
  AUTOINCREMENT counter and `clock` models the monotone `datetime` clock used
  for the `timestamp` column (each insert stamps the current clock and
  advances it).  A `Store` is `Option Table`: `none` means the table has not
  been created yet.
* A `Row` always carries all seven fields; a field whose column is absent
  from the schema is dead data (it is overwritten with the column default
  when `ALTER TABLE ADD COLUMN` introduces the column, exactly as SQLite
  backfills defaults).
* `sqlite.execute` failures are injected through a `Fault` record; an
  uncaught SQL error is an `Except.error` of the core function, and the
  JS `try/catch` wrapper is the outer function that turns it into an
  empty result plus a log entry.
* `ORDER BY timestamp DESC` is modelled by `sortTsDesc`, an insertion sort
  on the `ts` field, descending.
-/

namespace Meetup

/-- One row of the `registrations` table. -/
structure Row where
  id : Nat
  ts : Nat
  name : String
  email : String
  is_speaker : Bool
  topic : Option String
  profile_pic : Option String
deriving DecidableEq

/-- The `registrations` table: schema flags for the three late-added columns,
content in insertion order, AUTOINCREMENT counter and timestamp clock. -/
structure Table where
  hasIsSpeaker : Bool
  hasTopic : Bool
  hasProfilePic : Bool
  rows : List Row
  nextId : Nat
  clock : Nat
deriving DecidableEq

/-- The persistent store: `none` while the table has not been created. -/
abbrev Store := Option Table

/-- Fault injection for the two query shapes the readers issue
(`PRAGMA table_info` and the `SELECT`). -/
structure Fault where
  pragmaFails : Bool
  selectFails : Bool
deriving DecidableEq

/-- The fault-free adapter. -/
def noFault : Fault := { pragmaFails := false, selectFails := false }

def sPragmaErr : String := "pragma query failed"
def sSelectErr : String := "select query failed"
def sNoTable : String := "no such table"
def sNoColumn : String := "no such column"
def sLogAll : String := "Error fetching registrations: "
def sLogSpeakers : String := "Error fetching speakers: "
def strPOST : String := "POST"

/-- `CREATE TABLE` with the full column set (meetup.js lines 14-27):
all three optional columns present, no rows. -/
def createdTable : Table :=
  { hasIsSpeaker := true, hasTopic := true, hasProfilePic := true,
    rows := [], nextId := 1, clock := 0 }

/-- `ALTER TABLE registrations ADD COLUMN topic TEXT` (line 40): the column
appears and every existing row gets the default `NULL`. -/
def addColumnTopic (t : Table) : Table :=
  { t with hasTopic := true, rows := t.rows.map fun r => { r with topic := none } }

/-- `ALTER TABLE registrations ADD COLUMN is_speaker BOOLEAN DEFAULT 0`
(line 49): existing rows are backfilled with `0`. -/
def addColumnIsSpeaker (t : Table) : Table :=
  { t with hasIsSpeaker := true, rows := t.rows.map fun r => { r with is_speaker := false } }

/-- `ALTER TABLE registrations ADD COLUMN profile_pic TEXT` (line 58). -/
def addColumnProfilePic (t : Table) : Table :=
  { t with hasProfilePic := true, rows := t.rows.map fun r => { r with profile_pic := none } }

/-- `initializeDatabase` (meetup.js lines 4-67): create the table with all
columns when missing, otherwise introspect `PRAGMA table_info` and add each
of `topic`, `is_speaker`, `profile_pic` when absent. -/
def initializeDatabase : Store → Store
  | none => some createdTable
  | some t =>
    let t1 := if t.hasTopic = true then t else addColumnTopic t
    let t2 := if t1.hasIsSpeaker = true then t1 else addColumnIsSpeaker t1
    let t3 := if t2.hasProfilePic = true then t2 else addColumnProfilePic t2
    some t3

/-- What one `initializeDatabase` call does to a pre-existing row: columns
already present keep their value, late-added columns receive their default. -/
def migrateRow (t : Table) (r : Row) : Row :=
  { r with
    topic := if t.hasTopic = true then r.topic else none,
    is_speaker := if t.hasIsSpeaker = true then r.is_speaker else false,
    profile_pic := if t.hasProfilePic = true then r.profile_pic else none }

/-- Insert one row ordered after everything inserted so far
(`ORDER BY timestamp DESC`, descending insertion sort, line 89). -/
def insertTsDesc (r : Row) : List Row → List Row
  | [] => [r]
  | x :: xs => if x.ts ≤ r.ts then r :: x :: xs else x :: insertTsDesc r xs

/-- `ORDER BY timestamp DESC` on the whole table. -/
def sortTsDesc : List Row → List Row
  | [] => []
  | x :: xs => insertTsDesc x (sortTsDesc xs)

/-- The registration object built by `getAllRegistrations` (lines 93-106):
`id`, `name`, `email` always; each optional field present exactly when its
column exists in the schema. -/
structure Registration where
  id : Nat
  name : String
  email : String
  is_speaker : Option Bool
  topic : Option (Option String)
  profile_pic : Option (Option String)
deriving DecidableEq

/-- Row-to-registration mapping of `getAllRegistrations`. -/
def rowToReg (t : Table) (r : Row) : Registration :=
  { id := r.id, name := r.name, email := r.email,
    is_speaker := if t.hasIsSpeaker = true then some r.is_speaker else none,
    topic := if t.hasTopic = true then some r.topic else none,
    profile_pic := if t.hasProfilePic = true then some r.profile_pic else none }

/-- Body of the `try` block of `getAllRegistrations` (lines 70-106): a
failing query surfaces as `Except.error`.  `PRAGMA table_info` on a missing
table yields no columns and the subsequent `SELECT` raises `no such table`. -/
def getAllRegistrationsCore (s : Store) (f : Fault) : Except String (List Registration) :=
  if f.pragmaFails = true then Except.error sPragmaErr
  else
    match s with
    | none => Except.error sNoTable
    | some t =>
      if f.selectFails = true then Except.error sSelectErr
      else Except.ok ((sortTsDesc t.rows).map (rowToReg t))

/-- `getAllRegistrations` with its `catch` (lines 107-110): an error is
logged (`console.error`, second component) and downgraded to `[]`. -/
def getAllRegistrations (s : Store) (f : Fault) : List Registration × Option String :=
  match getAllRegistrationsCore s f with
  | Except.ok l => (l, none)
  | Except.error e => ([], some (sLogAll ++ e))

/-- The speaker object built by `getSpeakers` (lines 142-153). -/
structure Speaker where
  id : Nat
  name : String
  topic : Option (Option String)
  profile_pic : Option (Option String)
deriving DecidableEq

/-- Row-to-speaker mapping of `getSpeakers`. -/
def rowToSpeaker (t : Table) (r : Row) : Speaker :=
  { id := r.id, name := r.name,
    topic := if t.hasTopic = true then some r.topic else none,
    profile_pic := if t.hasProfilePic = true then some r.profile_pic else none }

/-- `getSpeakers` (lines 114-158): introspect the schema first; when `topic`
or `is_speaker` is absent return `[]` without querying (lines 125-128); a
missing table gives an empty `PRAGMA` result, hence the same early return;
otherwise `SELECT ... WHERE is_speaker = 1 ORDER BY timestamp DESC`.
The `catch` downgrades query failures to `[]` with a log entry. -/
def getSpeakers (s : Store) (f : Fault) : List Speaker × Option String :=
  if f.pragmaFails = true then ([], some (sLogSpeakers ++ sPragmaErr))
  else
    match s with
    | none => ([], none)
    | some t =>
      if t.hasTopic = false ∨ t.hasIsSpeaker = false then ([], none)
      else if f.selectFails = true then ([], some (sLogSpeakers ++ sSelectErr))
      else (((sortTsDesc (t.rows.filter fun r => r.is_speaker)).map (rowToSpeaker t)), none)

/-- The JSON body of a submission request.  Absent fields are `none`;
JavaScript truthiness over the shapes actually sent (strings, booleans,
null/undefined) is `truthyStr` and `truthyB`. -/
structure ReqBody where
  name : Option String
  email : Option String
  is_speaker : Option Bool
  topic : Option String
  profile_pic : Option String
deriving DecidableEq

/-- Truthiness of an optional string: false for undefined and the empty
string, true otherwise. -/
def truthyStr : Option String → Bool
  | none => false
  | some s => s != ""

/-- Truthiness of an optional boolean. -/
def truthyB : Option Bool → Bool
  | none => false
  | some b => b

/-- JavaScript `topic || null` (line 219): the value when truthy, else null. -/
def jsOr (o : Option String) : Option String :=
  if truthyStr o = true then o else none

/-- Extract the payload of a truthy optional string. -/
def orEmpty : Option String → String
  | none => ""
  | some s => s

/-- Append one row stamped with the current clock and the AUTOINCREMENT id. -/
def Table.insertRow (t : Table) (nm em : String) (sp : Bool) (tp pic : Option String) : Table :=
  { t with
    rows := t.rows ++
      [{ id := t.nextId, ts := t.clock, name := nm, email := em,
         is_speaker := sp, topic := tp, profile_pic := pic }],
    nextId := t.nextId + 1, clock := t.clock + 1 }

/-- The `INSERT INTO registrations (name, email, is_speaker, topic,
profile_pic) VALUES ...` of lines 212-222: it raises when the table or one
of the named columns is missing, otherwise appends one row. -/
def sqlInsert (s : Store) (nm em : String) (sp : Bool) (tp pic : Option String) :
    Except String Store :=
  match s with
  | none => Except.error sNoTable
  | some t =>
    if t.hasIsSpeaker = true ∧ t.hasTopic = true ∧ t.hasProfilePic = true then
      Except.ok (some (t.insertRow nm em sp tp pic))
    else Except.error sNoColumn

/-- `handleRegistrationSubmission` (lines 192-231).  Result: HTTP status and
the store after the request.  Order of checks as in the source: non-POST →
405 before parsing; malformed JSON body (`Except.error`) → 500; missing
name or email → 400; speaker without topic → 400; then the insert, whose
failure the `catch` turns into 500.  Note the insert stores
`topic || null` and `profile_pic || null` unconditionally — they are not
nulled for non-speakers. -/
def handleRegistrationSubmission (method : String) (body : Except Unit ReqBody)
    (store : Store) : Nat × Store :=
  if method ≠ strPOST then (405, store)
  else
    match body with
    | Except.error _ => (500, store)
    | Except.ok b =>
      if truthyStr b.name = false ∨ truthyStr b.email = false then (400, store)
      else if truthyB b.is_speaker = true ∧ truthyStr b.topic = false then (400, store)
      else
        match sqlInsert store (orEmpty b.name) (orEmpty b.email)
            (truthyB b.is_speaker) (jsOr b.topic) (jsOr b.profile_pic) with
        | Except.ok s2 => (200, s2)
        | Except.error _ => (500, store)

/-- The router (line 163) runs `initializeDatabase` before dispatching; a
POST to `/submit-registration` with a parsed body is therefore this
composition. -/
def afterSubmit (s : Store) (b : ReqBody) : Nat × Store :=
  handleRegistrationSubmission strPOST (Except.ok b) (initializeDatabase s)

/-- A listed registration matching a submitted body, per the insert rule of
lines 212-222. -/
def matchesBody (b : ReqBody) (r : Registration) : Prop :=
  b.name = some r.name ∧ b.email = some r.email ∧
  r.is_speaker = some (truthyB b.is_speaker) ∧
  r.topic = some (jsOr b.topic) ∧
  r.profile_pic = some (jsOr b.profile_pic)

/-- A submission the spec calls valid: non-empty name and email, and a
non-empty topic whenever `is_speaker` is truthy. -/
def validBody (b : ReqBody) : Prop :=
  truthyStr b.name = true ∧ truthyStr b.email = true ∧
  (truthyB b.is_speaker = true → truthyStr b.topic = true)

/-
Broadcast Session (`handleSSEUpdates`, lines 234-319).

The per-session state after `start` has run up to and including the initial
write attempt:
* `cancelled`  — the transport saw the client disconnect.  The stream's
  `cancel()` hook (lines 304-307) only logs, so no session field changes at
  that moment; instead `controller.enqueue` and `controller.close` throw
  from then on, which is how the code detects the disconnect.
* `isClosed`   — the `isClosed` flag of `start`.
* `timerArmed` — the `setInterval` handle exists and was not cleared.
* `writeCalls` — number of `controller.enqueue` invocations (attempts).
* `writesDelivered` — number of enqueue calls that succeeded.

The spec's abstract states map onto this as `Sess.state`: STREAMING while
the repeating timer is armed, CLOSED once it is not (no further activity is
possible then), STARTING being the phase before the model starts.

`startSession dead` is the state right after the initial snapshot write of
lines 243-259: when the client is already gone (`dead = true`) the enqueue
throws, the `controller.close()` in the catch throws too (the stream is
already closed), so `isClosed` stays false, and `start` returns before any
`setInterval` — the timer is never armed.  Otherwise the write is delivered
and the 3000 ms interval is armed.

`tick` is one interval callback (lines 262-295): a cleared-flag early
return; `getAllRegistrations` (which never throws — its own catch returns
`[]` — but the code still guards it, the `fetchFails` branch); then the
enqueue attempt whose failure marks the session closed and clears the
interval.
-/

/-- Per-session state of one SSE broadcast session. -/
structure Sess where
  cancelled : Bool
  isClosed : Bool
  timerArmed : Bool
  writeCalls : Nat
  writesDelivered : Nat
deriving DecidableEq

/-- The spec's session states. -/
inductive SState where
  | starting
  | streaming
  | closed
deriving DecidableEq

/-- Abstraction map: STREAMING while the repeating timer is armed, CLOSED
once it is not (the session can never write again). -/
def Sess.state (s : Sess) : SState :=
  if s.timerArmed = true then SState.streaming else SState.closed

/-- State after `start` completed its initial write attempt (lines 239-301).
`dead = true`: the client disconnected during the initial fetch, the first
enqueue throws, close() throws as well, no interval is ever scheduled. -/
def startSession (dead : Bool) : Sess :=
  if dead = true then
    { cancelled := true, isClosed := false, timerArmed := false,
      writeCalls := 1, writesDelivered := 0 }
  else
    { cancelled := false, isClosed := false, timerArmed := true,
      writeCalls := 1, writesDelivered := 1 }

/-- One firing of the interval callback (lines 262-295). -/
def tick (fetchFails : Bool) (s : Sess) : Sess :=
  if s.timerArmed = false then s
  else if s.isClosed = true then { s with timerArmed := false }
  else if fetchFails = true then
    if s.cancelled = true then { s with timerArmed := false }
    else { s with isClosed := true, timerArmed := false }
  else if s.cancelled = true then
    { s with writeCalls := s.writeCalls + 1, isClosed := true, timerArmed := false }
  else
    { s with writeCalls := s.writeCalls + 1, writesDelivered := s.writesDelivered + 1 }

/-- External events a live session can see: an interval firing, or the
transport reporting the client gone (which invokes the `cancel()` hook of
lines 304-307 — it only logs, so the only state change is the transport
flag that makes later enqueues throw). -/
inductive Event where
  | tickEv (fetchFails : Bool)
  | cancel
deriving DecidableEq

/-- Effect of one event. -/
def stepEv : Event → Sess → Sess
  | Event.tickEv f, s => tick f s
  | Event.cancel, s => { s with cancelled := true }

/-- Run a sequence of events. -/
def runEvents : List Event → Sess → Sess
  | [], s => s
  | e :: evs, s => runEvents evs (stepEv e s)

/-
Timing of the polling loop, for the ordering claim.  `setInterval(cb, 3000)`
(line 262) fires the callback on the fixed schedule 3000, 6000, 9000, ...
ms after scheduling, regardless of whether a previous invocation is still
awaiting its fetch.  In the run where every write succeeds and the client
stays connected, `isClosed` stays false forever, so invocation k starts its
snapshot fetch the moment it fires, and performs its write the moment the
fetch resolves (`dur k` ms later).
-/

/-- The polling interval of line 295. -/
def interval : Nat := 3000

/-- Time at which tick k fires and starts its snapshot fetch. -/
def fetchStart (k : Nat) : Nat := interval * (k + 1)

/-- Time at which tick k's write happens: when its fetch, of duration
`dur k`, resolves. -/
def writeDone (dur : Nat → Nat) (k : Nat) : Nat := fetchStart k + dur k

/- Concrete inputs used by the witness theorems. -/

def sAna : String := "Ana"
def sMailA : String := "a@x.com"
def sAnn : String := "Ann"
def sMailB : String := "b@x.com"
def sSurprise : String := "Surprise"
def sPicUrl : String := "pic.example"
def sGET : String := "GET"

/-- A plain (non-speaker) valid submission. -/
def bAna : ReqBody :=
  { name := some sAna, email := some sMailA, is_speaker := none,
    topic := none, profile_pic := none }

/-- A submission with `is_speaker` false but a topic and picture supplied. -/
def bTrick : ReqBody :=
  { name := some sAnn, email := some sMailB, is_speaker := some false,
    topic := some sSurprise, profile_pic := some sPicUrl }

/-- A streaming session right after the transport reported the client gone. -/
def sCW : Sess := stepEv Event.cancel (startSession false)

/-- A pre-migration table: none of the speaker-era columns exist yet. -/
def tNoSpk : Table :=
  { hasIsSpeaker := false, hasTopic := false, hasProfilePic := false,
    rows := [], nextId := 1, clock := 0 }

/-- A row whose dead fields hold junk, to exercise column backfilling. -/
def rGarbage : Row :=
  { id := 1, ts := 0, name := sAna, email := sMailA, is_speaker := true,
    topic := some sSurprise, profile_pic := some sPicUrl }

/-- A store created before any of the three column migrations. -/
def sOld : Store :=
  some { hasIsSpeaker := false, hasTopic := false, hasProfilePic := false,
         rows := [rGarbage], nextId := 5, clock := 7 }

def rowA : Row :=
  { id := 1, ts := 0, name := sAna, email := sMailA, is_speaker := false,
    topic := none, profile_pic := none }

def rowB : Row :=
  { id := 2, ts := 1, name := sAnn, email := sMailB, is_speaker := true,
    topic := some sSurprise, profile_pic := none }

/-- A two-row fully-migrated table, second row created later. -/
def tTwo : Table :=
  { hasIsSpeaker := true, hasTopic := true, hasProfilePic := true,
    rows := [rowA, rowB], nextId := 3, clock := 2 }

/- Helper lemmas. -/

theorem mem_insertTsDesc {a r : Row} {l : List Row} :
    a ∈ insertTsDesc r l ↔ a = r ∨ a ∈ l := by
  induction l with
  | nil => simp [insertTsDesc]
  | cons x xs ih =>
    by_cases h : x.ts ≤ r.ts
    · simp [insertTsDesc, h]
    · simp only [insertTsDesc, if_neg h, List.mem_cons, ih]
      tauto

theorem mem_sortTsDesc {a : Row} {l : List Row} : a ∈ sortTsDesc l ↔ a ∈ l := by
  induction l with
  | nil => simp [sortTsDesc]
  | cons x xs ih => simp [sortTsDesc, mem_insertTsDesc, ih, List.mem_cons]

theorem insertTsDesc_of_lt {r : Row} {l : List Row} (h : ∀ x ∈ l, r.ts < x.ts) :
    insertTsDesc r l = l ++ [r] := by
  induction l with
  | nil => rfl
  | cons x xs ih =>
    have hx : ¬ x.ts ≤ r.ts := Nat.not_le.mpr (h x (List.mem_cons_self x xs))
    simp [insertTsDesc, hx, ih fun y hy => h y (List.mem_cons_of_mem x hy)]

theorem sortTsDesc_pairwise {l : List Row}
    (h : List.Pairwise (fun a b => a.ts < b.ts) l) : sortTsDesc l = l.reverse := by
  induction l with
  | nil => rfl
  | cons x xs ih =>
    rcases List.pairwise_cons.mp h with ⟨hx, hxs⟩
    simp only [sortTsDesc, ih hxs, List.reverse_cons]
    exact insertTsDesc_of_lt fun y hy => hx y (List.mem_reverse.mp hy)

theorem migrateRow_eta (t : Table) (r : Row) (h1 : t.hasTopic = true)
    (h2 : t.hasIsSpeaker = true) (h3 : t.hasProfilePic = true) : migrateRow t r = r := by
  cases r
  simp [migrateRow, h1, h2, h3]

theorem map_migrateRow_full (rows : List Row) (t : Table) (h1 : t.hasTopic = true)
    (h2 : t.hasIsSpeaker = true) (h3 : t.hasProfilePic = true) :
    rows.map (migrateRow t) = rows := by
  induction rows with
  | nil => rfl
  | cons x xs ih => simp [migrateRow_eta t x h1 h2 h3, ih]

theorem init_some (t : Table) :
    initializeDatabase (some t) =
      some { t with hasIsSpeaker := true, hasTopic := true, hasProfilePic := true,
                    rows := t.rows.map (migrateRow t) } := by
  obtain ⟨hsp, htp, hpic, rows, nid, clk⟩ := t
  cases hsp <;> cases htp <;> cases hpic <;>
    simp [initializeDatabase, addColumnTopic, addColumnIsSpeaker, addColumnProfilePic,
          migrateRow, map_migrateRow_full, List.map_map, Function.comp]

theorem init_full (s : Store) :
    ∃ t : Table, initializeDatabase s = some t ∧
      t.hasIsSpeaker = true ∧ t.hasTopic = true ∧ t.hasProfilePic = true := by
  cases s with
  | none => exact ⟨createdTable, rfl, rfl, rfl, rfl⟩
  | some t => exact ⟨_, init_some t, rfl, rfl, rfl⟩

theorem init_idem (s : Store) :
    initializeDatabase (initializeDatabase s) = initializeDatabase s := by
  cases s with
  | none => rfl
  | some t =>
    rw [init_some t, init_some]
    simp only [Option.some.injEq]
    congr 1
    exact map_migrateRow_full _ _ rfl rfl rfl

theorem init_iterate (s : Store) (N : Nat) (hN : 1 ≤ N) :
    initializeDatabase^[N] s = initializeDatabase s := by
  induction N with
  | zero => exact absurd hN (by norm_num)
  | succ n ih =>
    cases n with
    | zero => simp
    | succ m =>
      rw [Function.iterate_succ_apply', ih (by omega)]
      exact init_idem s

theorem truthyStr_some {o : Option String} (h : truthyStr o = true) :
    o = some (orEmpty o) := by
  cases o with
  | none => simp [truthyStr] at h
  | some s => rfl

theorem tick_unarmed {f : Bool} {s : Sess} (h : s.timerArmed = false) : tick f s = s := by
  simp [tick, h]

theorem runEvents_unarmed (evs : List Event) (s : Sess) (h : s.timerArmed = false) :
    (runEvents evs s).timerArmed = false ∧
    (runEvents evs s).writeCalls = s.writeCalls ∧
    (runEvents evs s).isClosed = s.isClosed ∧
    (runEvents evs s).writesDelivered = s.writesDelivered := by
  induction evs generalizing s with
  | nil => exact ⟨h, rfl, rfl, rfl⟩
  | cons e evs ih =>
    cases e with
    | tickEv f => simpa [runEvents, stepEv, tick_unarmed h] using ih s h
    | cancel =>
      have h2 : ({ s with cancelled := true } : Sess).timerArmed = false := h
      simpa [runEvents, stepEv] using ih _ h2

theorem tick_cancelled_proj (f : Bool) (s : Sess) : (tick f s).cancelled = s.cancelled := by
  simp only [tick]
  split_ifs <;> rfl

theorem tick_delivered_of_cancelled {f : Bool} {s : Sess} (h : s.cancelled = true) :
    (tick f s).writesDelivered = s.writesDelivered := by
  simp only [tick]
  split_ifs <;> simp_all

theorem runEvents_cancelled (evs : List Event) (s : Sess) (h : s.cancelled = true) :
    (runEvents evs s).writesDelivered = s.writesDelivered := by
  induction evs generalizing s with
  | nil => rfl
  | cons e evs ih =>
    cases e with
    | tickEv f =>
      have hc : (tick f s).cancelled = true := by rw [tick_cancelled_proj]; exact h
      calc (runEvents (Event.tickEv f :: evs) s).writesDelivered
          = (runEvents evs (tick f s)).writesDelivered := rfl
        _ = (tick f s).writesDelivered := ih _ hc
        _ = s.writesDelivered := tick_delivered_of_cancelled h
    | cancel => simpa [runEvents, stepEv] using ih { s with cancelled := true } rfl

/- Claim theorems. -/

/-- C1: a Broadcast Session whose very first write to the output channel
fails ends up CLOSED with no repeating timer ever scheduled, and however the
environment continues, no write beyond the failed initial one is ever
attempted (the write-call count stays 1 forever). -/
theorem c1_first_write_fails (evs : List Event) :
    (runEvents evs (startSession true)).timerArmed = false ∧
    (runEvents evs (startSession true)).writeCalls = 1 ∧
    Sess.state (runEvents evs (startSession true)) = SState.closed := by
  have h := runEvents_unarmed evs (startSession true) rfl
  exact ⟨h.1, h.2.1.trans rfl, by simp [Sess.state, h.1]⟩

/-- C2, counterexample: a STREAMING session that receives the external
cancellation signal does not transition to CLOSED and does not cancel its
timer — it stays STREAMING with the interval armed — and the next timer tick
performs one more write call, so the write-call count does not stay
constant after cancellation. -/
theorem c2_counterexample :
    Sess.state (stepEv Event.cancel (startSession false)) = SState.streaming ∧
    (stepEv Event.cancel (startSession false)).timerArmed = true ∧
    (tick false (stepEv Event.cancel (startSession false))).writeCalls =
      (stepEv Event.cancel (startSession false)).writeCalls + 1 := by
  decide

/-- C2, amended: cancellation is detected lazily.  After the cancellation
signal reaches a session whose timer is armed, the very next tick makes
exactly one (failing) write call, marks the session closed and cancels the
timer; from then on the write-call count never changes again.  No write
after the cancellation ever delivers data (`writesDelivered` is frozen from
the moment of cancellation).  Cancelling a session that is already CLOSED
(timer not armed) is a no-op: it changes none of the session fields except
the transport flag and the write-call count never changes afterward. -/
theorem c2_amended (s : Sess) (hc : s.cancelled = true) (ha : s.timerArmed = true)
    (hi : s.isClosed = false) :
    (tick false s).isClosed = true ∧
    (tick false s).timerArmed = false ∧
    (tick false s).writeCalls = s.writeCalls + 1 ∧
    (tick false s).writesDelivered = s.writesDelivered ∧
    (∀ evs, (runEvents evs (tick false s)).writeCalls = s.writeCalls + 1) ∧
    (∀ evs, (runEvents evs s).writesDelivered = s.writesDelivered) ∧
    (∀ s2 : Sess, s2.timerArmed = false →
      (stepEv Event.cancel s2).timerArmed = false ∧
      (stepEv Event.cancel s2).isClosed = s2.isClosed ∧
      (stepEv Event.cancel s2).writeCalls = s2.writeCalls ∧
      ∀ evs, (runEvents evs (stepEv Event.cancel s2)).writeCalls = s2.writeCalls) := by
  have ht : tick false s =
      { s with writeCalls := s.writeCalls + 1, isClosed := true, timerArmed := false } := by
    simp [tick, ha, hi, hc]
  refine ⟨by rw [ht], by rw [ht], by rw [ht], by rw [ht], ?_, ?_, ?_⟩
  · intro evs
    have h := runEvents_unarmed evs (tick false s) (by rw [ht])
    rw [h.2.1, ht]
  · exact fun evs => runEvents_cancelled evs s hc
  · intro s2 h2
    refine ⟨h2, rfl, rfl, fun evs => ?_⟩
    have h := runEvents_unarmed evs (stepEv Event.cancel s2) h2
    exact h.2.1

/-- C2, witness for the amended theorem at a concrete cancelled session. -/
theorem c2_amended_witness :
    sCW.cancelled = true ∧ sCW.timerArmed = true ∧ sCW.isClosed = false ∧
    (tick false sCW).isClosed = true ∧ (tick false sCW).writeCalls = sCW.writeCalls + 1 :=
  ⟨rfl, rfl, rfl, (c2_amended sCW rfl rfl rfl).1, (c2_amended sCW rfl rfl rfl).2.2.1⟩

/-- C3, counterexample: with `setInterval` the ticks fire on the fixed
3000 ms grid, so a 4000 ms fetch means tick 1 starts its fetch (at 6000 ms)
before tick 0's write has completed (at 7000 ms); and with a 7000 ms first
fetch, tick 1's snapshot is written (at 6000 ms) before tick 0's
(at 10000 ms) — out of fetch order. -/
theorem c3_counterexample :
    fetchStart 1 < writeDone (fun _ => 4000) 0 ∧
    writeDone (fun k => if k = 0 then 7000 else 0) 1 <
      writeDone (fun k => if k = 0 then 7000 else 0) 0 := by
  constructor <;> norm_num [fetchStart, writeDone, interval]

/-- C3, amended: ticks fire every 3000 ms regardless of in-flight fetches;
only when every snapshot fetch completes within the interval is the loop
serialized — each tick's write completes before the next tick's fetch
starts, and writes happen in tick order. -/
theorem c3_amended (dur : Nat → Nat) (h : ∀ k, dur k < interval) (k : Nat) :
    writeDone dur k < fetchStart (k + 1) ∧ writeDone dur k < writeDone dur (k + 1) := by
  have h1 := h k
  have h2 := h (k + 1)
  simp only [writeDone, fetchStart, interval] at h1 h2 ⊢
  omega

/-- C3, witness for the amended theorem with 100 ms fetches. -/
theorem c3_amended_witness :
    (∀ k : Nat, (fun _ : Nat => 100) k < interval) ∧
    writeDone (fun _ => 100) 0 < fetchStart 1 :=
  ⟨fun _ => by norm_num [interval],
   (c3_amended (fun _ => 100) (fun _ => by norm_num [interval]) 0).1⟩

/-- C4: `initializeDatabase` is idempotent — N calls (N ≥ 1) leave exactly
the state one call leaves — and one call on an existing table yields the
full column set while keeping every row, preserving the value of every
column that already existed and filling late-added columns with their
defaults (null, or 0 for `is_speaker`). -/
theorem c4_ensureSchema_idempotent (s : Store) (N : Nat) (hN : 1 ≤ N) :
    initializeDatabase^[N] s = initializeDatabase s ∧
    ∀ t : Table, s = some t →
      initializeDatabase s =
        some { t with hasIsSpeaker := true, hasTopic := true, hasProfilePic := true,
                      rows := t.rows.map (migrateRow t) } ∧
      (t.rows.map (migrateRow t)).length = t.rows.length ∧
      ∀ r ∈ t.rows,
        (migrateRow t r).id = r.id ∧ (migrateRow t r).ts = r.ts ∧
        (migrateRow t r).name = r.name ∧ (migrateRow t r).email = r.email ∧
        (t.hasTopic = true → (migrateRow t r).topic = r.topic) ∧
        (t.hasTopic = false → (migrateRow t r).topic = none) ∧
        (t.hasIsSpeaker = true → (migrateRow t r).is_speaker = r.is_speaker) ∧
        (t.hasIsSpeaker = false → (migrateRow t r).is_speaker = false) ∧
        (t.hasProfilePic = true → (migrateRow t r).profile_pic = r.profile_pic) ∧
        (t.hasProfilePic = false → (migrateRow t r).profile_pic = none) := by
  refine ⟨init_iterate s N hN, ?_⟩
  rintro t rfl
  refine ⟨init_some t, by simp, fun r _ => ?_⟩
  refine ⟨rfl, rfl, rfl, rfl, ?_, ?_, ?_, ?_, ?_, ?_⟩ <;>
    · intro hx
      simp [migrateRow, hx]

/-- C4, witness: two calls on a pre-migration store with one row equal one
call. -/
theorem c4_witness : 1 ≤ 2 ∧ initializeDatabase^[2] sOld = initializeDatabase sOld :=
  ⟨by norm_num, (c4_ensureSchema_idempotent sOld 2 (by norm_num)).1⟩

/-- C5: the snapshot reader is total — for every store state and every
injected adapter fault it returns a list: the mapped rows with no log entry
when the queries succeed, and the empty list together with a logged failure
whenever any query fails. -/
theorem c5_reader_never_throws (s : Store) (f : Fault) :
    (∃ l, getAllRegistrationsCore s f = Except.ok l ∧ getAllRegistrations s f = (l, none)) ∨
    (∃ e, getAllRegistrationsCore s f = Except.error e ∧
      getAllRegistrations s f = ([], some (sLogAll ++ e))) := by
  cases h : getAllRegistrationsCore s f with
  | ok l => exact Or.inl ⟨l, rfl, by simp [getAllRegistrations, h]⟩
  | error e => exact Or.inr ⟨e, rfl, by simp [getAllRegistrations, h]⟩

/-- C6: a valid submission (non-empty name and email, and non-empty topic
whenever `is_speaker` is truthy) posted to the submission route is accepted
with status 200, and the subsequent fault-free read lists a row matching
the submitted input. -/
theorem c6_insert_then_listAll (s : Store) (b : ReqBody) (hv : validBody b) :
    (afterSubmit s b).1 = 200 ∧
    ∃ r ∈ (getAllRegistrations (afterSubmit s b).2 noFault).1, matchesBody b r := by
  obtain ⟨hn, he, hsp⟩ := hv
  obtain ⟨t1, ht1, hspk, htp, hpic⟩ := init_full s
  have hgate : ¬(truthyB b.is_speaker = true ∧ truthyStr b.topic = false) := by
    rintro ⟨h1, h2⟩
    rw [hsp h1] at h2
    cases h2
  have hres : afterSubmit s b =
      (200, some (t1.insertRow (orEmpty b.name) (orEmpty b.email)
        (truthyB b.is_speaker) (jsOr b.topic) (jsOr b.profile_pic))) := by
    simp [afterSubmit, handleRegistrationSubmission, ht1, hn, he, hgate,
          sqlInsert, hspk, htp, hpic]
  refine ⟨by rw [hres], ?_⟩
  rw [hres]
  set t2 := t1.insertRow (orEmpty b.name) (orEmpty b.email)
    (truthyB b.is_speaker) (jsOr b.topic) (jsOr b.profile_pic) with ht2
  set nr : Row :=
    { id := t1.nextId, ts := t1.clock, name := orEmpty b.name, email := orEmpty b.email,
      is_speaker := truthyB b.is_speaker, topic := jsOr b.topic,
      profile_pic := jsOr b.profile_pic } with hnr
  have hget : getAllRegistrations (some t2) noFault =
      ((sortTsDesc t2.rows).map (rowToReg t2), none) := by
    simp [getAllRegistrations, getAllRegistrationsCore, noFault]
  rw [hget]
  refine ⟨rowToReg t2 nr, ?_, ?_⟩
  · apply List.mem_map_of_mem
    apply mem_sortTsDesc.mpr
    show nr ∈ t2.rows
    rw [ht2]
    exact List.mem_append_right _ (List.mem_singleton.mpr rfl)
  · have hf1 : t2.hasIsSpeaker = true := hspk
    have hf2 : t2.hasTopic = true := htp
    have hf3 : t2.hasProfilePic = true := hpic
    refine ⟨?_, ?_, ?_, ?_, ?_⟩ <;>
      simp [matchesBody, rowToReg, hf1, hf2, hf3, hnr]
    · exact truthyStr_some hn
    · exact truthyStr_some he

/-- C6, witness at a concrete empty store and plain submission. -/
theorem c6_witness :
    validBody bAna ∧
    ((afterSubmit none bAna).1 = 200 ∧
      ∃ r ∈ (getAllRegistrations (afterSubmit none bAna).2 noFault).1, matchesBody bAna r) := by
  have hv : validBody bAna := ⟨by decide, by decide, fun h => absurd h (by decide)⟩
  exact ⟨hv, c6_insert_then_listAll none bAna hv⟩

/-- C7, counterexample: a submission with `is_speaker` false but a topic
and profile picture supplied is accepted, and the stored row keeps the
supplied topic instead of null — refuting the claim that non-speaker
submissions store `topic`/`profile_pic` as null. -/
theorem c7_counterexample :
    truthyB bTrick.is_speaker = false ∧
    (handleRegistrationSubmission strPOST (Except.ok bTrick) (initializeDatabase none)).1
      = 200 ∧
    Option.map (fun t => t.rows.map Row.topic)
      (handleRegistrationSubmission strPOST (Except.ok bTrick) (initializeDatabase none)).2
      = some [some sSurprise] := by
  decide

/-- C7, amended: an accepted submission stores `topic` and `profile_pic` as
the supplied value when truthy and null otherwise, independently of
`is_speaker`; `is_speaker` is stored as the truthiness of the supplied
flag. -/
theorem c7_amended (t : Table) (b : ReqBody)
    (hspk : t.hasIsSpeaker = true) (htp : t.hasTopic = true) (hpic : t.hasProfilePic = true)
    (hn : truthyStr b.name = true) (he : truthyStr b.email = true)
    (hsp : truthyB b.is_speaker = true → truthyStr b.topic = true) :
    handleRegistrationSubmission strPOST (Except.ok b) (some t) =
      (200, some (t.insertRow (orEmpty b.name) (orEmpty b.email)
        (truthyB b.is_speaker) (jsOr b.topic) (jsOr b.profile_pic))) := by
  have hgate : ¬(truthyB b.is_speaker = true ∧ truthyStr b.topic = false) := by
    rintro ⟨h1, h2⟩
    rw [hsp h1] at h2
    cases h2
  simp [handleRegistrationSubmission, hn, he, hgate, sqlInsert, hspk, htp, hpic]

/-- C7, witness: the amended rule evaluated at the non-speaker-with-topic
body. -/
theorem c7_amended_witness :
    truthyB bTrick.is_speaker = false ∧
    handleRegistrationSubmission strPOST (Except.ok bTrick) (some createdTable) =
      (200, some (createdTable.insertRow (orEmpty bTrick.name) (orEmpty bTrick.email)
        (truthyB bTrick.is_speaker) (jsOr bTrick.topic) (jsOr bTrick.profile_pic))) :=
  ⟨by decide, c7_amended createdTable bTrick rfl rfl rfl (by decide) (by decide) (by decide)⟩

/-- C8: on a store whose schema predates the speaker columns (`topic` or
`is_speaker` absent, in particular any not-yet-created table), the speaker
reader returns the empty sequence for every injected fault, and with a
working adapter it returns empty without even logging an error. -/
theorem c8_speakers_pre_migration (s : Store) (f : Fault)
    (h : ∀ t : Table, s = some t → t.hasTopic = false ∨ t.hasIsSpeaker = false) :
    (getSpeakers s f).1 = [] ∧ (f.pragmaFails = false → getSpeakers s f = ([], none)) := by
  cases s with
  | none => cases hp : f.pragmaFails <;> simp [getSpeakers, hp]
  | some t =>
    have ht := h t rfl
    cases hp : f.pragmaFails <;> simp [getSpeakers, hp, ht]

/-- C8, witness at a concrete pre-migration table. -/
theorem c8_witness :
    (getSpeakers (some tNoSpk) noFault).1 = [] ∧
    getSpeakers (some tNoSpk) noFault = ([], none) := by
  have h := c8_speakers_pre_migration (some tNoSpk) noFault
    (fun t ht => by injection ht with h2; subst h2; exact Or.inl rfl)
  exact ⟨h.1, h.2 rfl⟩

/-- C9: on a well-formed table (timestamps strictly increase in insertion
order, which the monotone insert clock guarantees), the fault-free read
returns every stored row, mapped to its registration object, in reverse
insertion order — most recently created first. -/
theorem c9_listAll_most_recent_first (t : Table)
    (hwf : List.Pairwise (fun a b : Row => a.ts < b.ts) t.rows) :
    getAllRegistrations (some t) noFault = (t.rows.reverse.map (rowToReg t), none) := by
  simp [getAllRegistrations, getAllRegistrationsCore, noFault, sortTsDesc_pairwise hwf]

/-- C9, witness at a concrete two-row table. -/
theorem c9_witness :
    List.Pairwise (fun a b : Row => a.ts < b.ts) tTwo.rows ∧
    getAllRegistrations (some tTwo) noFault = (tTwo.rows.reverse.map (rowToReg tTwo), none) := by
  have hwf : List.Pairwise (fun a b : Row => a.ts < b.ts) tTwo.rows := by decide
  exact ⟨hwf, c9_listAll_most_recent_first tTwo hwf⟩

/-- C10: every rejected submission request — 405 for a non-POST method or
400 for a failed validation — leaves the store exactly as it was: the
rejection is produced before any insert executes. -/
theorem c10_rejection_no_insert (method : String) (body : Except Unit ReqBody) (s : Store)
    (h : (handleRegistrationSubmission method body s).1 = 405 ∨
         (handleRegistrationSubmission method body s).1 = 400) :
    (handleRegistrationSubmission method body s).2 = s := by
  by_cases hm : method ≠ strPOST
  · simp [handleRegistrationSubmission, hm]
  · cases body with
    | error e => simp [handleRegistrationSubmission, hm]
    | ok b =>
      by_cases h1 : truthyStr b.name = false ∨ truthyStr b.email = false
      · simp [handleRegistrationSubmission, hm, h1]
      · by_cases h2 : truthyB b.is_speaker = true ∧ truthyStr b.topic = false
        · simp [handleRegistrationSubmission, hm, h1, h2]
        · cases hins : sqlInsert s (orEmpty b.name) (orEmpty b.email)
              (truthyB b.is_speaker) (jsOr b.topic) (jsOr b.profile_pic) with
          | ok s2 =>
            exfalso
            rcases h with h | h <;>
              simp [handleRegistrationSubmission, hm, h1, h2, hins] at h
          | error e => simp [handleRegistrationSubmission, hm, h1, h2, hins]

/-- C10, witness: a GET to the submission route is a 405 and leaves the
store untouched. -/
theorem c10_witness :
    ((handleRegistrationSubmission sGET (Except.error ()) none).1 = 405 ∨
      (handleRegistrationSubmission sGET (Except.error ()) none).1 = 400) ∧
    (handleRegistrationSubmission sGET (Except.error ()) none).2 = none :=
  ⟨Or.inl (by decide),
   c10_rejection_no_insert sGET (Except.error ()) none (Or.inl (by decide))⟩

end Meetup
